import Mathlib

/-!
Shallow embedding of `pkg/minikube/command/ssh_runner.go`.

The Go code runs remote commands over an established SSH connection and
copies files with the scp "sink" protocol.  Sessions, pipes and the remote
command are external collaborators; we model each call's interaction with
them as an explicit "world" record describing the outcome every collaborator
call would produce (session creation, pipe acquisition, the chunks each
output pipe yields, the remote exit status, the scheduler's interleaving of
the two concurrent tee writers).  Bytes are `Nat`, byte streams are
`List Nat`, and each public operation is a pure function from its world to a
result record that also carries the observable trace the claims talk about
(bytes written to the stdin channel, log lines emitted, how many sessions
were created and closed, whether the writer goroutine was joined).
-/

namespace SSHRunner

/-- A byte.  The Go code moves `[]byte`; we use `Nat` values. -/
abbrev Byte := Nat

/-- ASCII bytes of a Go string. -/
def strBytes (s : String) : List Byte := s.toList.map Char.toNat

/-- Decode captured bytes back to text, as `bytes.Buffer.String()` does. -/
def bytesToString (l : List Byte) : String := String.mk (l.map Char.ofNat)

/-- Errors produced by the runner.  Each constructor corresponds to one
production site in the Go source: `wrap` is `errors.Wrap`/`errors.Wrapf`,
`exitError` is the error `ssh.Session.Run`/`Wait` returns for a nonzero
remote exit status, `external` is an error handed to us by a collaborator
(session factory, pipe acquisition, a failing local read), `sizeMismatch` is
the `fmt.Errorf` in `Copy`'s writer comparing copied bytes with the declared
length, `cmdFailed` is the `fmt.Errorf` in `Copy` wrapping the scp command's
failure with its combined output, and `writeErr` is a destination-writer
failure in `CombinedOutputTo`. -/
inductive SSHError where
  | wrap (msg : String) (inner : SSHError)
  | exitError (code : Nat)
  | external (msg : String)
  | sizeMismatch (name : String) (expected copied : Nat)
  | cmdFailed (scp : String) (inner : SSHError) (output : String)
  | writeErr (msg : String)
  deriving Repr, DecidableEq

/-- `assets.CopyableFile` as consumed by `Copy`/`Remove`: declared length,
permission string, target directory and name, and the byte source.
`content` is the sequence of bytes the source yields before it either
reaches a clean end of stream (`readErr = none`) or fails
(`readErr = some e`, as `io.Copy` would report after forwarding
`content`). -/
structure CopyableFile where
  length : Nat
  permissions : String
  targetDir : String
  targetName : String
  content : List Byte
  readErr : Option String
  deriving Repr, DecidableEq

/-- Outcome of one remote session, as seen through the `ssh.Session`
collaborator: whether acquiring each output pipe succeeds, the chunks each
pipe yields before end-of-stream or a read failure, the read failures
themselves, the remote command's exit status, and the scheduler's choice of
interleaving between the two concurrent tee writers (`true` = the stdout
tee's next chunk goes first).  `exitStatus = 0` means `Session.Run` returns
`nil`. -/
structure SessionWorld where
  stdoutPipeErr : Option String
  stderrPipeErr : Option String
  outChunks : List (List Byte)
  errChunks : List (List Byte)
  outReadErr : Option String
  errReadErr : Option String
  exitStatus : Nat
  schedule : List Bool
  deriving Repr, DecidableEq

/-- Close errors reported by `ssh.Session.Close`: `io.EOF` or another
error. -/
inductive CloseError where
  | eof
  | other (msg : String)
  deriving Repr, DecidableEq

/-- World of one facade call that runs a command: the session factory's
answer, the session's behaviour, and `Session.Close`'s result. -/
structure RunnerWorld where
  newSessionErr : Option String
  sess : SessionWorld
  closeErr : Option CloseError
  deriving Repr, DecidableEq

/-- The error `ssh.Session.Run` returns: `nil` for a zero exit status, an
exit error otherwise. -/
def runError (w : SessionWorld) : Option SSHError :=
  if w.exitStatus = 0 then none else some (.exitError w.exitStatus)

/-- `singleWriter.Write`: append the chunk `p` to the mutex-guarded
`bytes.Buffer` and report the number of bytes consumed.  The mutex makes
each call atomic, which the step-interleaving model below reflects by
treating one `Write` as one indivisible step. -/
def singleWriter.Write (b : List Byte) (p : List Byte) : List Byte × Nat :=
  (b ++ p, p.length)

/-- Execution of two concurrent writers pushing their chunk lists into one
`singleWriter`, under a scheduler trace `sched` (`true` = writer A moves
next).  Each step is one atomic `singleWriter.Write`.  When the trace runs
out, remaining chunks of A then B are flushed. -/
def singleWriterRun : List Bool → List (List Byte) → List (List Byte) →
    List Byte → List Byte
  | _, [], [], buf => buf
  | s, [], b :: bs, buf => singleWriterRun s [] bs (singleWriter.Write buf b).1
  | s, a :: as, [], buf => singleWriterRun s as [] (singleWriter.Write buf a).1
  | [], a :: as, b :: bs, buf =>
      singleWriterRun [] as (b :: bs) (singleWriter.Write buf a).1
  | true :: s, a :: as, bs, buf =>
      singleWriterRun s as bs (singleWriter.Write buf a).1
  | false :: s, as, b :: bs, buf =>
      singleWriterRun s as (bs) (singleWriter.Write buf b).1
  termination_by _ as bs _ => as.length + bs.length

/-- The chunk-level merge the scheduler produces: same recursion as
`singleWriterRun`, but keeping the appended chunks as list elements. -/
def mergeChunks : List Bool → List (List Byte) → List (List Byte) →
    List (List Byte)
  | _, [], [] => []
  | s, [], b :: bs => b :: mergeChunks s [] bs
  | s, a :: as, [] => a :: mergeChunks s as []
  | [], a :: as, b :: bs => a :: mergeChunks [] as (b :: bs)
  | true :: s, a :: as, bs => a :: mergeChunks s as bs
  | false :: s, as, b :: bs => b :: mergeChunks s as bs
  termination_by _ as bs => as.length + bs.length

/-- Modelled from the spec: `util.TeePrefix` (the Stream Tee) is outside the
shown source.  Per §4.1 it drains one pipe to end-of-stream, forwards every
chunk unmodified to its capture buffer, logs a line-projection with the
stream's prefix, and returns an error exactly when the underlying read
fails.  We model the capture it performs as the pipe's chunk list and its
result as the pipe's read error. -/
structure TeeOutcome where
  written : List (List Byte)
  err : Option String
  deriving Repr, DecidableEq

/-- Modelled from the spec: the tee over one pipe captures exactly the
chunks the pipe yields and fails exactly when the read fails (§4.1). -/
def TeePrefix (chunks : List (List Byte)) (readErr : Option String) :
    TeeOutcome :=
  ⟨chunks, readErr⟩

/-- Observable outcome of `teeSSH`: the returned error, the chunk sequence
each tee wrote to its buffer argument, and the log lines the goroutines
emitted (`glog.Errorf` on a tee failure). -/
structure TeeSSHResult where
  err : Option SSHError
  outWritten : List (List Byte)
  errWritten : List (List Byte)
  logged : List String
  deriving Repr, DecidableEq

/-- `teeSSH`: acquire the stdout pipe (wrapping a failure as "stdout"), then
the stderr pipe (wrapping as "stderr"), start the two tee goroutines, run
the command, and join the goroutines.  A tee's error is logged
("tee stderr"/"tee stdout"), never returned; the returned error is
`Session.Run`'s. -/
def teeSSH (w : SessionWorld) (cmd : String) : TeeSSHResult :=
  match w.stdoutPipeErr with
  | some e => ⟨some (.wrap "stdout" (.external e)), [], [], []⟩
  | none =>
    match w.stderrPipeErr with
    | some e => ⟨some (.wrap "stderr" (.external e)), [], [], []⟩
    | none =>
      let tErr := TeePrefix w.errChunks w.errReadErr
      let tOut := TeePrefix w.outChunks w.outReadErr
      let logErr := match tErr.err with
        | some e => ["tee stderr: " ++ e]
        | none => []
      let logOut := match tOut.err with
        | some e => ["tee stdout: " ++ e]
        | none => []
      ⟨runError w, tOut.written, tErr.written, logErr ++ logOut⟩

/-- Observable outcome of `Run`: the returned error, the final content of
the two capture buffers, the log lines emitted, and the session-lifecycle
trace. -/
structure RunResult where
  err : Option SSHError
  outB : List Byte
  errB : List Byte
  logged : List String
  sessionsCreated : Nat
  sessionCloses : Nat
  deriving Repr, DecidableEq

/-- `Run`: create a session (wrapping a failure as "NewSession"), tee the
command through two private buffers, and on failure wrap the error with the
command and both captured texts.  The deferred close runs after the body;
its error is logged unless it is `io.EOF` and is never propagated. -/
def Run (rw : RunnerWorld) (cmd : String) : RunResult :=
  match rw.newSessionErr with
  | some e => ⟨some (.wrap "NewSession" (.external e)), [], [], [], 0, 0⟩
  | none =>
    let t := teeSSH rw.sess cmd
    let outB := t.outWritten.flatten
    let errB := t.errWritten.flatten
    let res : Option SSHError :=
      match t.err with
      | some e =>
          some (.wrap ("command failed: " ++ cmd ++ "\nstdout: " ++
            bytesToString outB ++ "\nstderr: " ++ bytesToString errB) e)
      | none => none
    let closeLog := match rw.closeErr with
      | some (.other e) => ["session close: " ++ e]
      | _ => []
    ⟨res, outB, errB, t.logged ++ closeLog, 1, 1⟩

/-- Observable outcome of `CombinedOutput`: the returned text and error plus
the session-lifecycle trace. -/
structure CombinedResult where
  out : String
  err : Option SSHError
  sessionsCreated : Nat
  sessionCloses : Nat
  deriving Repr, DecidableEq

/-- `CombinedOutput`: create a session (wrapping a failure as "NewSession"),
tee both streams into one `singleWriter`, and return the buffer's text in
both the success and the failure branch together with `teeSSH`'s error.
The deferred `sess.Close()` discards its error. -/
def CombinedOutput (rw : RunnerWorld) (cmd : String) : CombinedResult :=
  match rw.newSessionErr with
  | some e => ⟨"", some (.wrap "NewSession" (.external e)), 0, 0⟩
  | none =>
    let t := teeSSH rw.sess cmd
    let combined := singleWriterRun rw.sess.schedule t.outWritten t.errWritten []
    ⟨bytesToString combined, t.err, 1, 1⟩

/-- Observable outcome of `CombinedOutputTo`: the returned error, the
sequence of writes made to the destination writer, and the session trace of
the underlying `CombinedOutput` call. -/
structure CombinedToResult where
  err : Option SSHError
  destWrites : List String
  sessionsCreated : Nat
  sessionCloses : Nat
  deriving Repr, DecidableEq

/-- `CombinedOutputTo`: run `CombinedOutput`; on its error return that error
without touching the destination; otherwise write the captured text to the
destination once and return the write's error (`destErr` models the
destination writer's answer). -/
def CombinedOutputTo (rw : RunnerWorld) (cmd : String)
    (destErr : Option String) : CombinedToResult :=
  let c := CombinedOutput rw cmd
  match c.err with
  | some e => ⟨some e, [], c.sessionsCreated, c.sessionCloses⟩
  | none =>
    let werr : Option SSHError := match destErr with
      | some e => some (.writeErr e)
      | none => none
    ⟨werr, [c.out], c.sessionsCreated, c.sessionCloses⟩

/-- Observable outcome of `Remove`: the returned error, the session trace,
and how many commands were executed on the session. -/
structure RemoveResult where
  err : Option SSHError
  sessionsCreated : Nat
  sessionCloses : Nat
  commandsRun : Nat
  deriving Repr, DecidableEq

/-- `Remove`: create a session (wrapping a failure as "getting ssh
session"), run the delete command derived from the file (the command text
comes from the external `getDeleteFileCommand`), and return `Session.Run`'s
error; the deferred `sess.Close()` discards its error. -/
def Remove (rw : RunnerWorld) : RemoveResult :=
  match rw.newSessionErr with
  | some e => ⟨some (.wrap "getting ssh session" (.external e)), 0, 0, 0⟩
  | none => ⟨runError rw.sess, 1, 1, 1⟩

/-- World of one `Copy` call: the session factory's answer, `StdinPipe`'s
answer, and the outcome of `sess.CombinedOutput(scp)` on the remote side
(the error the remote scp command wait reports, if any, and its combined
output text). -/
structure CopyWorld where
  newSessionErr : Option String
  stdinPipeErr : Option String
  remoteErr : Option String
  remoteOut : String
  deriving Repr, DecidableEq

/-- The sink-protocol header line `Copy`'s writer formats:
`C<permissions> <length> <targetName>\n`. -/
def scpHeader (f : CopyableFile) : String :=
  "C" ++ f.permissions ++ " " ++ toString f.length ++ " " ++ f.targetName ++ "\n"

/-- The remote command line `Copy` issues. -/
def scpCommand (f : CopyableFile) : String :=
  "sudo mkdir -p " ++ f.targetDir ++ " && sudo scp -t " ++ f.targetDir

/-- Outcome of `Copy`'s writer goroutine, run to completion: the bytes it
wrote to the stdin channel, whether it closed the channel (the deferred
`w.Close()`), and the error it returned to the errgroup. -/
structure WriterOutcome where
  written : List Byte
  closed : Bool
  err : Option SSHError
  deriving Repr, DecidableEq

/-- The body of `g.Go` in `Copy`: write the header; for a zero-length file
write the 0x00 terminator and stop; otherwise `io.Copy` the source (which
forwards `f.content` and then reports `f.readErr`, wrapped as "io.Copy"),
fail with the size-mismatch `fmt.Errorf` when the copied count differs from
the declared length, and only after a full-length body write the 0x00
terminator.  The deferred close always runs. -/
def copyWriter (f : CopyableFile) : WriterOutcome :=
  let hdr := strBytes (scpHeader f)
  if f.length = 0 then
    ⟨hdr ++ [0], true, none⟩
  else
    match f.readErr with
    | some e => ⟨hdr ++ f.content, true, some (.wrap "io.Copy" (.external e))⟩
    | none =>
      if f.content.length = f.length then
        ⟨hdr ++ f.content ++ [0], true, none⟩
      else
        ⟨hdr ++ f.content, true,
          some (.sizeMismatch f.targetName f.length f.content.length)⟩

/-- Observable outcome of `Copy`: the returned error; whether the writer
goroutine was launched and whether `Copy` joined it (`g.Wait()` executed)
before returning; the bytes the writer task writes to the stdin channel over
its whole life and whether it closes the channel; and the session-lifecycle
trace. -/
structure CopyResult where
  err : Option SSHError
  writerStarted : Bool
  writerJoined : Bool
  written : List Byte
  stdinClosed : Bool
  sessionsCreated : Nat
  sessionCloses : Nat
  deriving Repr, DecidableEq

/-- `Copy`: create a session (wrapping a failure as "NewSession"), get the
stdin pipe (wrapping as "StdinPipe"), launch the writer goroutine, run the
remote scp command via `sess.CombinedOutput`.  If the remote command fails,
return the `fmt.Errorf`-wrapped remote error immediately — without calling
`g.Wait()`, so without joining the writer.  Otherwise return `g.Wait()`,
the writer's error.  No path closes the session. -/
def Copy (cw : CopyWorld) (f : CopyableFile) : CopyResult :=
  match cw.newSessionErr with
  | some e =>
      ⟨some (.wrap "NewSession" (.external e)), false, false, [], false, 0, 0⟩
  | none =>
    match cw.stdinPipeErr with
    | some e =>
        ⟨some (.wrap "StdinPipe" (.external e)), false, false, [], false, 1, 0⟩
    | none =>
      let wr := copyWriter f
      match cw.remoteErr with
      | some e =>
          ⟨some (.cmdFailed (scpCommand f) (.external e) cw.remoteOut),
            true, false, wr.written, wr.closed, 1, 0⟩
      | none => ⟨wr.err, true, true, wr.written, wr.closed, 1, 0⟩

/-- A concurrent run of two writers equals flattening the chunk-level merge
chosen by the scheduler, appended to the initial buffer. -/
lemma singleWriterRun_eq_merge (s : List Bool) (as bs : List (List Byte))
    (buf : List Byte) :
    singleWriterRun s as bs buf = buf ++ (mergeChunks s as bs).flatten := by
  induction s, as, bs using mergeChunks.induct generalizing buf with
  | case1 s => simp [singleWriterRun, mergeChunks]
  | case2 s b bs ih =>
      simp [singleWriterRun, mergeChunks, singleWriter.Write, ih]
  | case3 s a as ih =>
      simp [singleWriterRun, mergeChunks, singleWriter.Write, ih]
  | case4 a as b bs ih =>
      simp [singleWriterRun, mergeChunks, singleWriter.Write, ih]
  | case5 s a as bs hne ih =>
      cases bs with
      | nil => exact (hne rfl).elim
      | cons b bs =>
          simp [singleWriterRun, mergeChunks, singleWriter.Write, ih]
  | case6 s as b bs hne ih =>
      cases as with
      | nil => exact (hne rfl).elim
      | cons a as =>
          simp [singleWriterRun, mergeChunks, singleWriter.Write, ih]

/-- The merged chunk list carries exactly the bytes of both inputs. -/
lemma mergeChunks_flatten_length (s : List Bool) (as bs : List (List Byte)) :
    (mergeChunks s as bs).flatten.length
      = as.flatten.length + bs.flatten.length := by
  induction s, as, bs using mergeChunks.induct with
  | case1 s => simp [mergeChunks]
  | case2 s b bs ih => simp [mergeChunks, ih] <;> omega
  | case3 s a as ih => simp [mergeChunks, ih] <;> omega
  | case4 a as b bs ih => simp [mergeChunks, ih] <;> omega
  | case5 s a as bs hne ih =>
      cases bs with
      | nil => exact (hne rfl).elim
      | cons b bs => simp [mergeChunks, ih] <;> omega
  | case6 s as b bs hne ih =>
      cases as with
      | nil => exact (hne rfl).elim
      | cons a as => simp [mergeChunks, ih] <;> omega

/-- The first writer's chunks appear in the merge, whole and in order. -/
lemma mergeChunks_sublist_left (s : List Bool) (as bs : List (List Byte)) :
    as.Sublist (mergeChunks s as bs) := by
  induction s, as, bs using mergeChunks.induct with
  | case1 s => simp [mergeChunks]
  | case2 s b bs ih => exact List.nil_sublist _
  | case3 s a as ih => simpa [mergeChunks] using ih.cons₂ a
  | case4 a as b bs ih => simpa [mergeChunks] using ih.cons₂ a
  | case5 s a as bs hne ih =>
      cases bs with
      | nil => exact (hne rfl).elim
      | cons b bs => simpa [mergeChunks] using ih.cons₂ a
  | case6 s as b bs hne ih =>
      cases as with
      | nil => exact (hne rfl).elim
      | cons a as => simpa [mergeChunks] using ih.cons b

/-- The second writer's chunks appear in the merge, whole and in order. -/
lemma mergeChunks_sublist_right (s : List Bool) (as bs : List (List Byte)) :
    bs.Sublist (mergeChunks s as bs) := by
  induction s, as, bs using mergeChunks.induct with
  | case1 s => simp [mergeChunks]
  | case2 s b bs ih => simpa [mergeChunks] using ih.cons₂ b
  | case3 s a as ih => exact List.nil_sublist _
  | case4 a as b bs ih => simpa [mergeChunks] using ih.cons a
  | case5 s a as bs hne ih =>
      cases bs with
      | nil => exact (hne rfl).elim
      | cons b bs => simpa [mergeChunks] using ih.cons a
  | case6 s as b bs hne ih =>
      cases as with
      | nil => exact (hne rfl).elim
      | cons a as => simpa [mergeChunks] using ih.cons₂ b

/-- The writer goroutine of `Copy` always closes the stdin channel: every
branch runs under the deferred `w.Close()`. -/
lemma copyWriter_closed (f : CopyableFile) : (copyWriter f).closed = true := by
  by_cases h0 : f.length = 0
  · simp [copyWriter, h0]
  · cases hre : f.readErr with
    | some e => simp [copyWriter, h0, hre]
    | none =>
        by_cases hc : f.content.length = f.length <;>
          simp [copyWriter, h0, hre, hc]

/-- C9: for any scheduler interleaving and any chunk lists two concurrent
streams push through `singleWriter.Write`, the captured byte length is the
sum of the bytes each stream produced, and the capture is a flattening of a
chunk-level merge in which each stream's chunks appear whole (atomic,
non-interleaved) and in order. -/
theorem c9_singleWriter_concurrent_append (s : List Bool)
    (as bs : List (List Byte)) :
    (singleWriterRun s as bs []).length
      = as.flatten.length + bs.flatten.length ∧
    ∃ merged : List (List Byte),
      singleWriterRun s as bs [] = merged.flatten ∧
      as.Sublist merged ∧ bs.Sublist merged := by
  constructor
  · rw [singleWriterRun_eq_merge]
    simpa using mergeChunks_flatten_length s as bs
  · exact ⟨mergeChunks s as bs,
      by simpa using singleWriterRun_eq_merge s as bs [],
      mergeChunks_sublist_left s as bs, mergeChunks_sublist_right s as bs⟩

/-- C5: when session creation and both pipe acquisitions succeed, `Run`
returns no error exactly when the remote exit status is zero, and a failure
is returned wrapped with the command text and the captured stdout and
stderr texts. -/
theorem c5_run_exit_iff (rw : RunnerWorld) (cmd : String)
    (hs : rw.newSessionErr = none)
    (ho : rw.sess.stdoutPipeErr = none)
    (he : rw.sess.stderrPipeErr = none) :
    ((Run rw cmd).err = none ↔ rw.sess.exitStatus = 0) ∧
    (rw.sess.exitStatus ≠ 0 →
      (Run rw cmd).err = some (.wrap
        ("command failed: " ++ cmd ++ "\nstdout: "
          ++ bytesToString rw.sess.outChunks.flatten ++ "\nstderr: "
          ++ bytesToString rw.sess.errChunks.flatten)
        (.exitError rw.sess.exitStatus))) := by
  by_cases hz : rw.sess.exitStatus = 0 <;>
    simp [Run, teeSSH, TeePrefix, runError, hs, ho, he, hz]

/-- C5 witness: a concrete failing command with captured output. -/
theorem c5_run_exit_iff_witness :
    ((Run ⟨none, ⟨none, none, [[104, 105]], [[101]], none, none, 3, []⟩,
        none⟩ "ls").err = none ↔ (3 : Nat) = 0) ∧
    ((3 : Nat) ≠ 0 →
      (Run ⟨none, ⟨none, none, [[104, 105]], [[101]], none, none, 3, []⟩,
          none⟩ "ls").err = some (.wrap
        ("command failed: " ++ "ls" ++ "\nstdout: "
          ++ bytesToString ([[104, 105]] : List (List Byte)).flatten
          ++ "\nstderr: "
          ++ bytesToString ([[101]] : List (List Byte)).flatten)
        (.exitError 3))) :=
  c5_run_exit_iff
    ⟨none, ⟨none, none, [[104, 105]], [[101]], none, none, 3, []⟩, none⟩
    "ls" rfl rfl rfl

/-- C7: with both pipes acquired, `teeSSH` returns exactly the command's
exit error, untouched by tee outcomes, and a tee read failure surfaces as a
logged secondary diagnostic ("tee stderr"/"tee stdout") without replacing
the returned command error. -/
theorem c7_teeSSH_error_priority (w : SessionWorld) (cmd : String)
    (ho : w.stdoutPipeErr = none) (he : w.stderrPipeErr = none) :
    (teeSSH w cmd).err = runError w ∧
    (∀ e, w.errReadErr = some e →
      ("tee stderr: " ++ e) ∈ (teeSSH w cmd).logged) ∧
    (∀ e, w.outReadErr = some e →
      ("tee stdout: " ++ e) ∈ (teeSSH w cmd).logged) := by
  refine ⟨by simp [teeSSH, TeePrefix, ho, he], fun e hee => ?_, fun e hoe => ?_⟩
  · simp [teeSSH, TeePrefix, ho, he, hee]
  · simp [teeSSH, TeePrefix, ho, he, hoe]

/-- C7 witness: both tees fail while the command exits nonzero; the exit
error is returned and both tee failures are logged. -/
theorem c7_teeSSH_error_priority_witness :
    (teeSSH ⟨none, none, [[104]], [[105]], some "read out", some "read err",
        2, []⟩ "make").err
      = runError ⟨none, none, [[104]], [[105]], some "read out",
        some "read err", 2, []⟩ ∧
    ("tee stderr: " ++ "read err") ∈
      (teeSSH ⟨none, none, [[104]], [[105]], some "read out", some "read err",
        2, []⟩ "make").logged ∧
    ("tee stdout: " ++ "read out") ∈
      (teeSSH ⟨none, none, [[104]], [[105]], some "read out", some "read err",
        2, []⟩ "make").logged := by
  obtain ⟨h1, h2, h3⟩ := c7_teeSSH_error_priority
    ⟨none, none, [[104]], [[105]], some "read out", some "read err", 2, []⟩
    "make" rfl rfl
  exact ⟨h1, h2 "read err" rfl, h3 "read out" rfl⟩

/-- C8: with session and pipes acquired, `CombinedOutput` returns the text
of the shared `singleWriter` buffer — the scheduled merge of the stdout and
stderr chunks — whether the command succeeded or failed, and its error is
the command's. -/
theorem c8_combinedOutput_text (rw : RunnerWorld) (cmd : String)
    (hs : rw.newSessionErr = none)
    (ho : rw.sess.stdoutPipeErr = none)
    (he : rw.sess.stderrPipeErr = none) :
    (CombinedOutput rw cmd).out = bytesToString
      (singleWriterRun rw.sess.schedule rw.sess.outChunks rw.sess.errChunks
        []) ∧
    ((CombinedOutput rw cmd).err = none ↔ rw.sess.exitStatus = 0) := by
  by_cases hz : rw.sess.exitStatus = 0 <;>
    simp [CombinedOutput, teeSSH, TeePrefix, runError, hs, ho, he, hz]

/-- C8 witness: a failing command still yields the merged buffer text. -/
theorem c8_combinedOutput_text_witness :
    (CombinedOutput ⟨none, ⟨none, none, [[104, 105]], [[108, 111]], none,
        none, 7, [false]⟩, none⟩ "sh").out
      = bytesToString (singleWriterRun [false] [[104, 105]] [[108, 111]]
          []) ∧
    ((CombinedOutput ⟨none, ⟨none, none, [[104, 105]], [[108, 111]], none,
        none, 7, [false]⟩, none⟩ "sh").err = none ↔ (7 : Nat) = 0) :=
  c8_combinedOutput_text
    ⟨none, ⟨none, none, [[104, 105]], [[108, 111]], none, none, 7, [false]⟩,
      none⟩ "sh" rfl rfl rfl

/-- C10: whenever `CombinedOutput` returns an error, `CombinedOutputTo`
returns that same error and writes nothing to the destination; when it
succeeds, the captured text is written to the destination exactly once. -/
theorem c10_combinedOutputTo_forward (rw : RunnerWorld) (cmd : String)
    (destErr : Option String) :
    (∀ e, (CombinedOutput rw cmd).err = some e →
      (CombinedOutputTo rw cmd destErr).err = some e ∧
      (CombinedOutputTo rw cmd destErr).destWrites = []) ∧
    ((CombinedOutput rw cmd).err = none →
      (CombinedOutputTo rw cmd destErr).destWrites
        = [(CombinedOutput rw cmd).out]) := by
  constructor
  · intro e h
    simp [CombinedOutputTo, h]
  · intro h
    simp [CombinedOutputTo, h]

/-- C10 witness: one failing world (error forwarded, nothing written) and
one succeeding world (text written once). -/
theorem c10_combinedOutputTo_forward_witness :
    ((CombinedOutputTo ⟨none, ⟨none, none, [[104]], [[105]], none, none, 9,
        []⟩, none⟩ "sh" none).err = some (.exitError 9) ∧
      (CombinedOutputTo ⟨none, ⟨none, none, [[104]], [[105]], none, none, 9,
        []⟩, none⟩ "sh" none).destWrites = []) ∧
    (CombinedOutputTo ⟨none, ⟨none, none, [[104]], [[105]], none, none, 0,
        []⟩, none⟩ "sh" none).destWrites
      = [(CombinedOutput ⟨none, ⟨none, none, [[104]], [[105]], none, none, 0,
        []⟩, none⟩ "sh").out] :=
  ⟨(c10_combinedOutputTo_forward
      ⟨none, ⟨none, none, [[104]], [[105]], none, none, 9, []⟩, none⟩
      "sh" none).1 (.exitError 9) (by simp [CombinedOutput, teeSSH,
        TeePrefix, runError]),
    (c10_combinedOutputTo_forward
      ⟨none, ⟨none, none, [[104]], [[105]], none, none, 0, []⟩, none⟩
      "sh" none).2 (by simp [CombinedOutput, teeSSH, TeePrefix, runError])⟩

/-- C2: a successful `Copy` of a file with positive declared length writes
to the stdin channel exactly the header line
`C<permissions> <length> <targetName>\n`, then exactly the declared number
of payload bytes from the content source, then one 0x00 terminator. -/
theorem c2_copy_wire_format (cw : CopyWorld) (f : CopyableFile)
    (hs : cw.newSessionErr = none) (hp : cw.stdinPipeErr = none)
    (hr : cw.remoteErr = none) (hl : 0 < f.length)
    (hre : f.readErr = none) (hc : f.content.length = f.length) :
    (Copy cw f).err = none ∧
    (Copy cw f).written = strBytes (scpHeader f) ++ f.content ++ [0] ∧
    scpHeader f = "C" ++ f.permissions ++ " " ++ toString f.length ++ " "
      ++ f.targetName ++ "\n" := by
  have h0 : ¬ f.length = 0 := by omega
  simp [Copy, copyWriter, scpHeader, hs, hp, hr, h0, hre, hc]

/-- C2 witness: a three-byte file is framed as header, body, terminator. -/
theorem c2_copy_wire_format_witness :
    (Copy ⟨none, none, none, ""⟩
      ⟨3, "0644", "/etc/kube", "a.conf", [10, 20, 30], none⟩).err = none ∧
    (Copy ⟨none, none, none, ""⟩
        ⟨3, "0644", "/etc/kube", "a.conf", [10, 20, 30], none⟩).written
      = strBytes (scpHeader ⟨3, "0644", "/etc/kube", "a.conf", [10, 20, 30],
          none⟩) ++ [10, 20, 30] ++ [0] ∧
    scpHeader ⟨3, "0644", "/etc/kube", "a.conf", [10, 20, 30], none⟩
      = "C" ++ "0644" ++ " " ++ toString (3 : Nat) ++ " " ++ "a.conf"
        ++ "\n" :=
  c2_copy_wire_format ⟨none, none, none, ""⟩
    ⟨3, "0644", "/etc/kube", "a.conf", [10, 20, 30], none⟩
    rfl rfl rfl (by decide) rfl (by decide)

/-- C3: when the content source yields fewer bytes than the declared length
(and the remote side itself succeeds), `Copy` fails with the size-mismatch
error — a constructor distinct from the remote-command-failure error — the
short body is written with no terminator after it, and the stdin channel is
still closed. -/
theorem c3_copy_short_source (cw : CopyWorld) (f : CopyableFile)
    (hs : cw.newSessionErr = none) (hp : cw.stdinPipeErr = none)
    (hr : cw.remoteErr = none) (hre : f.readErr = none)
    (hshort : f.content.length < f.length) :
    (Copy cw f).err
      = some (.sizeMismatch f.targetName f.length f.content.length) ∧
    (Copy cw f).written = strBytes (scpHeader f) ++ f.content ∧
    (Copy cw f).stdinClosed = true ∧
    (∀ c inner out, (Copy cw f).err ≠ some (.cmdFailed c inner out)) := by
  have h0 : ¬ f.length = 0 := by omega
  have hcne : ¬ f.content.length = f.length := by omega
  simp [Copy, copyWriter, hs, hp, hr, h0, hre, hcne]

/-- C3 witness: a source two bytes short of its declared length. -/
theorem c3_copy_short_source_witness :
    (Copy ⟨none, none, none, ""⟩
        ⟨4, "0600", "/var/lib", "key.pem", [9, 9], none⟩).err
      = some (.sizeMismatch "key.pem" 4 2) ∧
    (Copy ⟨none, none, none, ""⟩
        ⟨4, "0600", "/var/lib", "key.pem", [9, 9], none⟩).written
      = strBytes (scpHeader ⟨4, "0600", "/var/lib", "key.pem", [9, 9],
          none⟩) ++ [9, 9] ∧
    (Copy ⟨none, none, none, ""⟩
        ⟨4, "0600", "/var/lib", "key.pem", [9, 9], none⟩).stdinClosed
      = true ∧
    (∀ c inner out, (Copy ⟨none, none, none, ""⟩
        ⟨4, "0600", "/var/lib", "key.pem", [9, 9], none⟩).err
      ≠ some (.cmdFailed c inner out)) :=
  c3_copy_short_source ⟨none, none, none, ""⟩
    ⟨4, "0600", "/var/lib", "key.pem", [9, 9], none⟩
    rfl rfl rfl rfl (by decide)

/-- C4: a `Copy` of a zero-length file writes exactly the header line
followed by the single 0x00 terminator, succeeds, and never reads the
content source — the whole call result is unchanged under any content and
any source read outcome. -/
theorem c4_copy_zero_length (cw : CopyWorld) (f : CopyableFile)
    (hs : cw.newSessionErr = none) (hp : cw.stdinPipeErr = none)
    (hr : cw.remoteErr = none) (hl : f.length = 0) :
    (Copy cw f).err = none ∧
    (Copy cw f).written = strBytes (scpHeader f) ++ [0] ∧
    (∀ c re, Copy cw { f with content := c, readErr := re } = Copy cw f) := by
  refine ⟨by simp [Copy, copyWriter, hs, hp, hr, hl], by
    simp [Copy, copyWriter, hs, hp, hr, hl], fun c re => ?_⟩
  simp [Copy, copyWriter, scpHeader, scpCommand, hs, hp, hr, hl]

/-- C4 witness: a zero-byte file, with arbitrary would-be sources shown to
be ignored. -/
theorem c4_copy_zero_length_witness :
    (Copy ⟨none, none, none, ""⟩
      ⟨0, "0644", "/tmp", "empty", [], none⟩).err = none ∧
    (Copy ⟨none, none, none, ""⟩
        ⟨0, "0644", "/tmp", "empty", [], none⟩).written
      = strBytes (scpHeader ⟨0, "0644", "/tmp", "empty", [], none⟩)
        ++ [0] ∧
    (∀ c re, Copy ⟨none, none, none, ""⟩
        { (⟨0, "0644", "/tmp", "empty", [], none⟩ : CopyableFile) with
          content := c, readErr := re }
      = Copy ⟨none, none, none, ""⟩
        ⟨0, "0644", "/tmp", "empty", [], none⟩) :=
  c4_copy_zero_length ⟨none, none, none, ""⟩
    ⟨0, "0644", "/tmp", "empty", [], none⟩ rfl rfl rfl rfl

/-- C1 counterexample: with session and stdin pipe obtained, a failing
remote command makes `Copy` return its error without executing `g.Wait()`,
so `Copy` does not wait for the writer task to complete — refuting the
claim that `Copy` never returns until both sides have completed. -/
theorem c1_copy_counterexample :
    (Copy ⟨none, none, some "exit status 1", "lost connection"⟩
        ⟨3, "0644", "/etc/kube", "a.conf", [1, 2], none⟩).writerJoined
      = false ∧
    (Copy ⟨none, none, some "exit status 1", "lost connection"⟩
        ⟨3, "0644", "/etc/kube", "a.conf", [1, 2], none⟩).err ≠ none := by
  constructor
  · rfl
  · simp [Copy, copyWriter]

/-- C1 (amended): when session and stdin pipe are obtained, `Copy` joins
the writer task and surfaces its error exactly when the remote command wait
succeeds; when the remote wait fails, `Copy` returns the remote failure
immediately without joining the writer.  The writer task itself always runs
to closing the stdin channel. -/
theorem c1_copy_join (cw : CopyWorld) (f : CopyableFile)
    (hs : cw.newSessionErr = none) (hp : cw.stdinPipeErr = none) :
    (cw.remoteErr = none →
      (Copy cw f).writerJoined = true ∧
      (Copy cw f).err = (copyWriter f).err) ∧
    (∀ e, cw.remoteErr = some e →
      (Copy cw f).writerJoined = false ∧
      (Copy cw f).err
        = some (.cmdFailed (scpCommand f) (.external e) cw.remoteOut)) ∧
    (Copy cw f).stdinClosed = true := by
  refine ⟨fun hr => ?_, fun e hr => ?_, ?_⟩
  · simp [Copy, hs, hp, hr]
  · simp [Copy, hs, hp, hr, copyWriter_closed]
  · cases hr : cw.remoteErr <;> simp [Copy, hs, hp, hr, copyWriter_closed]

/-- C1 witness: one world whose remote wait succeeds (writer joined) and
one whose remote wait fails (writer not joined, channel still closed). -/
theorem c1_copy_join_witness :
    ((Copy ⟨none, none, none, ""⟩
        ⟨2, "0644", "/opt", "f.txt", [5, 6], none⟩).writerJoined = true ∧
      (Copy ⟨none, none, none, ""⟩
          ⟨2, "0644", "/opt", "f.txt", [5, 6], none⟩).err
        = (copyWriter ⟨2, "0644", "/opt", "f.txt", [5, 6], none⟩).err) ∧
    ((Copy ⟨none, none, some "exit status 1", "oops"⟩
        ⟨2, "0644", "/opt", "f.txt", [5, 6], none⟩).writerJoined = false ∧
      (Copy ⟨none, none, some "exit status 1", "oops"⟩
          ⟨2, "0644", "/opt", "f.txt", [5, 6], none⟩).err
        = some (.cmdFailed
            (scpCommand ⟨2, "0644", "/opt", "f.txt", [5, 6], none⟩)
            (.external "exit status 1") "oops")) ∧
    (Copy ⟨none, none, some "exit status 1", "oops"⟩
        ⟨2, "0644", "/opt", "f.txt", [5, 6], none⟩).stdinClosed = true :=
  ⟨(c1_copy_join ⟨none, none, none, ""⟩
      ⟨2, "0644", "/opt", "f.txt", [5, 6], none⟩ rfl rfl).1 rfl,
    (c1_copy_join ⟨none, none, some "exit status 1", "oops"⟩
      ⟨2, "0644", "/opt", "f.txt", [5, 6], none⟩ rfl rfl).2.1
      "exit status 1" rfl,
    (c1_copy_join ⟨none, none, some "exit status 1", "oops"⟩
      ⟨2, "0644", "/opt", "f.txt", [5, 6], none⟩ rfl rfl).2.2⟩

/-- C6 counterexample: a fully successful `Copy` call creates one session
and closes it zero times, not exactly once — the source has no
`sess.Close()` on any `Copy` path — refuting the claim for the stated
operation set. -/
theorem c6_copy_never_closes :
    (Copy ⟨none, none, none, ""⟩
        ⟨2, "0644", "/tmp", "b", [7, 8], none⟩).sessionsCreated = 1 ∧
    (Copy ⟨none, none, none, ""⟩
        ⟨2, "0644", "/tmp", "b", [7, 8], none⟩).sessionCloses = 0 ∧
    (Copy ⟨none, none, none, ""⟩
        ⟨2, "0644", "/tmp", "b", [7, 8], none⟩).sessionCloses ≠ 1 := by
  refine ⟨rfl, rfl, by simp [Copy, copyWriter]⟩

/-- C6 (amended): each of `Run`, `CombinedOutput`, `CombinedOutputTo` and
`Remove` creates exactly one session per invocation and closes it exactly
once at the end of the call; `Copy` creates exactly one session and never
closes it.  Session close errors are never propagated — `Run`'s result is
unchanged under any close outcome — and `Run` logs a non-EOF close
error. -/
theorem c6_session_lifecycle (rw : RunnerWorld) (cw : CopyWorld)
    (cmd : String) (destErr : Option String) (f : CopyableFile)
    (h1 : rw.newSessionErr = none) (h2 : cw.newSessionErr = none) :
    (Run rw cmd).sessionsCreated = 1 ∧ (Run rw cmd).sessionCloses = 1 ∧
    (CombinedOutput rw cmd).sessionsCreated = 1 ∧
    (CombinedOutput rw cmd).sessionCloses = 1 ∧
    (CombinedOutputTo rw cmd destErr).sessionsCreated = 1 ∧
    (CombinedOutputTo rw cmd destErr).sessionCloses = 1 ∧
    (Remove rw).sessionsCreated = 1 ∧ (Remove rw).sessionCloses = 1 ∧
    (Copy cw f).sessionsCreated = 1 ∧ (Copy cw f).sessionCloses = 0 ∧
    (∀ ce, (Run { rw with closeErr := ce } cmd).err = (Run rw cmd).err) ∧
    (∀ e, rw.closeErr = some (.other e) →
      ("session close: " ++ e) ∈ (Run rw cmd).logged) := by
  refine ⟨by simp [Run, h1], by simp [Run, h1],
    by simp [CombinedOutput, h1], by simp [CombinedOutput, h1], ?_, ?_,
    by simp [Remove, h1], by simp [Remove, h1], ?_, ?_,
    fun ce => by simp [Run, h1], fun e hce => by simp [Run, h1, hce]⟩
  · cases h : (teeSSH rw.sess cmd).err <;>
      simp [CombinedOutputTo, CombinedOutput, h1, h]
  · cases h : (teeSSH rw.sess cmd).err <;>
      simp [CombinedOutputTo, CombinedOutput, h1, h]
  · cases hr : cw.stdinPipeErr <;> cases hre : cw.remoteErr <;>
      simp [Copy, h2, hr, hre]
  · cases hr : cw.stdinPipeErr <;> cases hre : cw.remoteErr <;>
      simp [Copy, h2, hr, hre]

/-- C6 witness: concrete worlds exercising the lifecycle counts, including
a non-EOF close error that is logged by `Run` but not propagated. -/
theorem c6_session_lifecycle_witness :
    (Run ⟨none, ⟨none, none, [], [], none, none, 0, []⟩,
        some (.other "broken")⟩ "date").sessionsCreated = 1 ∧
    (Run ⟨none, ⟨none, none, [], [], none, none, 0, []⟩,
        some (.other "broken")⟩ "date").sessionCloses = 1 ∧
    (CombinedOutput ⟨none, ⟨none, none, [], [], none, none, 0, []⟩,
        some (.other "broken")⟩ "date").sessionsCreated = 1 ∧
    (CombinedOutput ⟨none, ⟨none, none, [], [], none, none, 0, []⟩,
        some (.other "broken")⟩ "date").sessionCloses = 1 ∧
    (CombinedOutputTo ⟨none, ⟨none, none, [], [], none, none, 0, []⟩,
        some (.other "broken")⟩ "date" none).sessionsCreated = 1 ∧
    (CombinedOutputTo ⟨none, ⟨none, none, [], [], none, none, 0, []⟩,
        some (.other "broken")⟩ "date" none).sessionCloses = 1 ∧
    (Remove ⟨none, ⟨none, none, [], [], none, none, 0, []⟩,
        some (.other "broken")⟩).sessionsCreated = 1 ∧
    (Remove ⟨none, ⟨none, none, [], [], none, none, 0, []⟩,
        some (.other "broken")⟩).sessionCloses = 1 ∧
    (Copy ⟨none, none, none, ""⟩
        ⟨1, "0644", "/tmp", "c", [4], none⟩).sessionsCreated = 1 ∧
    (Copy ⟨none, none, none, ""⟩
        ⟨1, "0644", "/tmp", "c", [4], none⟩).sessionCloses = 0 ∧
    (∀ ce, (Run { (⟨none, ⟨none, none, [], [], none, none, 0, []⟩,
          some (.other "broken")⟩ : RunnerWorld) with closeErr := ce }
        "date").err
      = (Run ⟨none, ⟨none, none, [], [], none, none, 0, []⟩,
          some (.other "broken")⟩ "date").err) ∧
    (∀ e, (⟨none, ⟨none, none, [], [], none, none, 0, []⟩,
          some (.other "broken")⟩ : RunnerWorld).closeErr
        = some (.other e) →
      ("session close: " ++ e) ∈
        (Run ⟨none, ⟨none, none, [], [], none, none, 0, []⟩,
          some (.other "broken")⟩ "date").logged) :=
  c6_session_lifecycle
    ⟨none, ⟨none, none, [], [], none, none, 0, []⟩, some (.other "broken")⟩
    ⟨none, none, none, ""⟩ "date" none ⟨1, "0644", "/tmp", "c", [4], none⟩
    rfl rfl

end SSHRunner
